import Mathlib

/-!
Verification of the orchestration core in
`consensus/src/chained_bft/chained_bft_smr.rs`: the SMR lifecycle handle
(`ChainedBftSMR::start` / `stop`), the startup-recovery sub-loop of
`gen_event_processor`, and the steady-state event dispatch loop of
`start_event_processing`.

The loops are embedded as pure step functions: one iteration of a loop is a
function of the current loop state and the message the cooperative select
fired, returning the next state together with the ordered list of
collaborator calls that arm makes.  Collaborators whose code lives outside
this file (the Epoch Manager, the network receiver bundle, liveness storage)
are modelled from the specification, each marked as such in its doc comment.
-/

namespace ChainedBft

/-- Epoch numbers (u64 in the source). -/
abbrev Epoch := Nat

/-- Validator identity (Author). -/
abbrev Author := Nat

/-- Consensus round numbers (Round). -/
abbrev Round := Nat

/-- A steady-state per-epoch consensus handler (EventProcessor).  Its
internals live in `event_processor.rs`; here it is an opaque handle carrying
an identity that distinguishes distinct constructed processor objects and the
block-store reference its `block_store()` accessor returns. -/
structure EventProcessor where
  id : Nat
  blockStore : Nat
  deriving DecidableEq

/-- The tagged union `Processor<T>` of `epoch_manager.rs` exactly as consumed
by `chained_bft_smr.rs`: either a transient startup-sync processor or a fully
initialized event processor. -/
inductive Processor where
  | startupSyncProcessor (ssp : Nat)
  | eventProcessor (ep : EventProcessor)
  deriving DecidableEq

/-- Whether a resolved processor is the steady-state variant. -/
def Processor.isEventProcessor : Processor → Bool
  | .eventProcessor _ => true
  | .startupSyncProcessor _ => false

/-- Modelled from the spec: the Epoch Manager (in `epoch_manager.rs`, outside
this file) owns the monotonically increasing epoch number returned by
`epoch()` and constructs steady-state processors.  `nextId` is a freshness
counter: each construction yields a new processor object, distinct from every
previously constructed one. -/
structure EpochManager where
  epoch : Epoch
  nextId : Nat
  deriving DecidableEq

/-- Modelled from the spec: `start_new_epoch(ledger_info)` builds a fresh
steady-state processor for the notified epoch and moves the manager to that
epoch. -/
def EpochManager.start_new_epoch (em : EpochManager) (ledgerInfoEpoch : Epoch) :
    EpochManager × EventProcessor :=
  ({ epoch := ledgerInfoEpoch, nextId := em.nextId + 1 },
   { id := em.nextId, blockStore := em.nextId })

/-- Modelled from the spec: `start_epoch_with_recovery_data(data)` builds a
fresh steady-state processor for the current epoch from recovered data. -/
def EpochManager.start_epoch_with_recovery_data (em : EpochManager) (d : Nat) :
    EpochManager × EventProcessor :=
  ({ em with nextId := em.nextId + 1 }, { id := em.nextId, blockStore := d })

/-- The buffered message channels of the `NetworkReceivers<T>` bundle: one
queue of (opaque) message identifiers per message kind the loops select on.
The local-timeout channel is separate (it is not part of this bundle). -/
structure NetworkReceivers where
  proposals : List Nat
  block_retrieval : List Nat
  votes : List Nat
  sync_info_msgs : List Nat
  epoch_change : List Nat
  different_epoch : List Nat
  epoch_retrieval : List Nat
  deriving DecidableEq

/-- Modelled from the spec: `clear_prev_epoch_msgs()` on the receiver bundle
drops all currently buffered messages. -/
def NetworkReceivers.clear_prev_epoch_msgs (_r : NetworkReceivers) :
    NetworkReceivers :=
  { proposals := [], block_retrieval := [], votes := [], sync_info_msgs := [],
    epoch_change := [], different_epoch := [], epoch_retrieval := [] }

/-- The externally observable collaborator calls a loop iteration makes, in
the order the fired arm makes them. -/
inductive Effect where
  | process_proposal_msg (m : Nat)
  | process_vote (m : Nat)
  | process_sync_info_msg (m : Nat)
  | process_block_retrieval (m : Nat)
  | process_local_timeout (r : Round)
  | start_epoch_with_recovery_data (d : Nat)
  | start_new_epoch (e : Epoch)
  | clear_prev_epoch_msgs
  | processor_start
  | process_different_epoch (peer : Author) (e : Epoch)
  | process_epoch_retrieval (peer : Author) (m : Nat)
  deriving DecidableEq

/-- One message delivered by the cooperative select.  For proposal, vote and
sync-info messages the `recovery` component is the outcome the startup-sync
processor produces for that message during startup-recovery: `some d` when
extraction yields recovery data (the Ok branch), `none` when it fails (the
Err branch).  The steady-state loop ignores this component. -/
inductive Event where
  | proposal_msg (m : Nat) (recovery : Option Nat)
  | block_retrieval (m : Nat)
  | vote_msg (m : Nat) (recovery : Option Nat)
  | local_timeout (r : Round)
  | sync_info_msg (m : Nat) (recovery : Option Nat)
  | epoch_change (ledgerInfoEpoch : Epoch)
  | different_epoch (peer : Author) (e : Epoch)
  | epoch_retrieval (peer : Author) (m : Nat)
  deriving DecidableEq

/-- The state carried across iterations of the startup-recovery sub-loop in
`gen_event_processor`: the epoch manager and the receiver bundle (both taken
by mutable reference in the source).  The startup-sync processor itself is
external; the outcome of its extraction attempt rides on the message. -/
structure SubState where
  epoch_manager : EpochManager
  network_receivers : NetworkReceivers
  deriving DecidableEq

/-- The result of one iteration of the startup-recovery sub-loop.  `recorded`
says whether the iteration reached the two idle/busy counter observations
that follow the select block; a `break` out of the loop skips them.
`notSelected` marks the message kinds this loop does not select on
(block-retrieval, local timeouts, epoch-retrieval), which therefore cannot
fire an iteration. -/
inductive StartupStepResult where
  | looped (st : SubState) (effs : List Effect) (recorded : Bool)
  | exited (st : SubState) (p : EventProcessor) (effs : List Effect)
      (recorded : Bool)
  | notSelected
  deriving DecidableEq

/-- Whether the iteration recorded its idle/busy sample. -/
def StartupStepResult.recorded : StartupStepResult → Bool
  | .looped _ _ r => r
  | .exited _ _ _ r => r
  | .notSelected => true

/-- Whether the iteration exited the sub-loop. -/
def StartupStepResult.exits : StartupStepResult → Bool
  | .exited _ _ _ _ => true
  | _ => false

/-- One iteration of the startup-recovery sub-loop of `gen_event_processor`:
the five selected sources, the collaborator calls of the fired arm in order,
and whether the trailing counter observations ran.  An Ok extraction breaks
out with `start_epoch_with_recovery_data`; an epoch-change notification at or
above the current epoch rebuilds via `start_new_epoch`, clears the buffered
messages and breaks out; everything else loops. -/
def gen_event_processor_step (st : SubState) (ev : Event) : StartupStepResult :=
  match ev with
  | .proposal_msg m r =>
    match r with
    | some d =>
      let emp := st.epoch_manager.start_epoch_with_recovery_data d
      .exited { st with epoch_manager := emp.1 } emp.2
        [.process_proposal_msg m, .start_epoch_with_recovery_data d] false
    | none => .looped st [.process_proposal_msg m] true
  | .vote_msg m r =>
    match r with
    | some d =>
      let emp := st.epoch_manager.start_epoch_with_recovery_data d
      .exited { st with epoch_manager := emp.1 } emp.2
        [.process_vote m, .start_epoch_with_recovery_data d] false
    | none => .looped st [.process_vote m] true
  | .sync_info_msg m r =>
    match r with
    | some d =>
      let emp := st.epoch_manager.start_epoch_with_recovery_data d
      .exited { st with epoch_manager := emp.1 } emp.2
        [.process_sync_info_msg m, .start_epoch_with_recovery_data d] false
    | none => .looped st [.process_sync_info_msg m] true
  | .epoch_change e =>
    if st.epoch_manager.epoch ≤ e then
      let emp := st.epoch_manager.start_new_epoch e
      .exited { epoch_manager := emp.1,
                network_receivers :=
                  st.network_receivers.clear_prev_epoch_msgs }
        emp.2 [.start_new_epoch e, .clear_prev_epoch_msgs] false
    else
      .looped st [] true
  | .different_epoch peer e =>
    .looped st [.process_different_epoch peer e] true
  | .block_retrieval _ => .notSelected
  | .local_timeout _ => .notSelected
  | .epoch_retrieval _ _ => .notSelected

/-- The state carried across iterations of the steady-state event dispatch
loop in `start_event_processing`. -/
structure SteadyState where
  epoch_manager : EpochManager
  event_processor : EventProcessor
  network_receivers : NetworkReceivers
  deriving DecidableEq

/-- The result of one iteration of the steady-state loop.  `recorded` says
whether the idle/busy counter observations after the select ran. -/
structure SteadyStepResult where
  state : SteadyState
  effs : List Effect
  recorded : Bool
  deriving DecidableEq

/-- One iteration of the steady-state event dispatch loop of
`start_event_processing`: all eight sources are selected; each arm routes the
message to exactly one handler call; an epoch-change notification at or above
the current epoch rebuilds the processor via `start_new_epoch`, clears the
buffered messages and runs the new processor start hook; the counter
observations after the select always run (the loop has no break). -/
def start_event_processing_step (s : SteadyState) (ev : Event) :
    SteadyStepResult :=
  match ev with
  | .proposal_msg m _ => ⟨s, [.process_proposal_msg m], true⟩
  | .block_retrieval m => ⟨s, [.process_block_retrieval m], true⟩
  | .vote_msg m _ => ⟨s, [.process_vote m], true⟩
  | .local_timeout r => ⟨s, [.process_local_timeout r], true⟩
  | .sync_info_msg m _ => ⟨s, [.process_sync_info_msg m], true⟩
  | .epoch_change e =>
    if s.epoch_manager.epoch ≤ e then
      let emp := s.epoch_manager.start_new_epoch e
      ⟨{ epoch_manager := emp.1, event_processor := emp.2,
         network_receivers := s.network_receivers.clear_prev_epoch_msgs },
       [.start_new_epoch e, .clear_prev_epoch_msgs, .processor_start], true⟩
    else ⟨s, [], true⟩
  | .different_epoch peer e => ⟨s, [.process_different_epoch peer e], true⟩
  | .epoch_retrieval peer m => ⟨s, [.process_epoch_retrieval peer m], true⟩

/-- The idle/busy sample a loop iteration records after the select block:
`idleElapsed` is the reading of `pre_select_instant.elapsed()` taken when the
fired arm began, `totalElapsed` the reading at observation time; the recorded
busy duration is their difference. -/
def loopSample (idleElapsed totalElapsed : Nat) : Nat × Nat :=
  (idleElapsed, totalElapsed - idleElapsed)

/-- The overall processor-state machine of `start_event_processing`: first
the startup-recovery sub-loop (`gen_event_processor`), then — after the
recovered processor start hook — the steady-state dispatch loop forever. -/
inductive DriverState where
  | recovering (st : SubState)
  | steady (s : SteadyState)
  deriving DecidableEq

/-- Whether the driver reached the steady-state loop. -/
def DriverState.isSteady : DriverState → Bool
  | .recovering _ => false
  | .steady _ => true

/-- One dispatch step of the driver: in recovery, run one sub-loop iteration
(exiting moves to the steady-state loop with the produced processor); in
steady state, run one dispatch-loop iteration.  A message kind the recovery
sub-loop does not select on stays queued and changes nothing. -/
def driverStep (d : DriverState) (ev : Event) : DriverState :=
  match d with
  | .recovering st =>
    match gen_event_processor_step st ev with
    | .looped st2 _ _ => .recovering st2
    | .exited st2 p _ _ =>
      .steady { epoch_manager := st2.epoch_manager, event_processor := p,
                network_receivers := st2.network_receivers }
    | .notSelected => .recovering st
  | .steady s => .steady (start_event_processing_step s ev).state

/-- Run the driver over a sequence of dispatched messages. -/
def runDriver (d : DriverState) : List Event → DriverState
  | [] => d
  | ev :: evs => runDriver (driverStep d ev) evs

/-- The number of Startup-Recovery to Steady-State transitions along a run. -/
def countRecoveryToSteady (d : DriverState) : List Event → Nat
  | [] => 0
  | ev :: evs =>
    (if d.isSteady = false ∧ (driverStep d ev).isSteady = true then 1 else 0)
      + countRecoveryToSteady (driverStep d ev) evs

/-- The one-shot construction-input bundle `ChainedBftSMRInput<T>`; the
collaborator handles it carries are opaque here. -/
structure ChainedBftSMRInput where
  network_sender : Nat
  network_events : Nat
  safety_rules_manager : Nat
  state_computer : Nat
  txn_manager : Nat
  config : Nat
  deriving DecidableEq

/-- The SMR lifecycle handle `ChainedBftSMR<T>`: validator identity, the
optional retained scheduling-substrate (runtime) handle, the optional
block-tree reference published for introspection, the persistent liveness
storage handle, and the one-shot construction-input bundle. -/
structure ChainedBftSMR where
  author : Author
  runtime : Option Unit
  block_store : Option Nat
  storage : Nat
  input : Option ChainedBftSMRInput
  deriving DecidableEq

/-- `ChainedBftSMR::new`: bundles the inputs; the handle starts with no
runtime and no block-store reference. -/
def ChainedBftSMR.new (author : Author) (storage : Nat)
    (input : ChainedBftSMRInput) : ChainedBftSMR :=
  { author := author, runtime := none, block_store := none,
    storage := storage, input := some input }

/-- Modelled from the spec: the `LivenessStorageData<T>` returned by the
blocking `storage.start()` call carries recovered epoch info and either
enough data for a steady-state processor (`recovery = some d`) or a hint that
startup-recovery is required (`recovery = none`). -/
structure LivenessStorageData where
  epoch_info : Epoch
  recovery : Option Nat
  deriving DecidableEq

/-- Modelled from the spec: `EpochManager::start(liveness_data)` resolves the
initial Processor State — the steady-state variant when the recovered data
suffices, otherwise the startup-sync variant. -/
def EpochManager.start (em : EpochManager) (d : LivenessStorageData) :
    EpochManager × Processor :=
  match d.recovery with
  | some data =>
    let emp := em.start_epoch_with_recovery_data data
    (emp.1, .eventProcessor emp.2)
  | none => (em, .startupSyncProcessor 0)

/-- The bootstrap actions of `ChainedBftSMR::start`, in program order. -/
inductive BootEvent where
  | createRuntime
  | takeInput
  | createTimeService
  | createChannels
  | recoverStorage
  | buildEpochManager
  | buildNetworkTask
  | resolveProcessor
  | publishBlockStore
  | spawnNetworkTask
  | spawnEventLoop
  deriving DecidableEq

/-- The trace of bootstrap actions a successful `start()` performs, in the
order the source performs them: runtime creation, taking the one-shot input,
time service, timeout and self-message channels, the blocking storage
recovery, EpochManager and NetworkTask construction, initial processor
resolution, block-store publication, then spawning the network task and the
dispatch loop. -/
def bootTrace : List BootEvent :=
  [.createRuntime, .takeInput, .createTimeService, .createChannels,
   .recoverStorage, .buildEpochManager, .buildNetworkTask, .resolveProcessor,
   .publishBlockStore, .spawnNetworkTask, .spawnEventLoop]

/-- The two fatal `expect` panics `ChainedBftSMR::start` can raise: Tokio
runtime creation failure, and calling start with the input already taken. -/
inductive PanicReason where
  | runtimeCreationFailed
  | inputAlreadyConsumed
  deriving DecidableEq

/-- The outcome of `ChainedBftSMR::start`: a panic, or success with the
updated handle and the ordered trace of bootstrap actions. -/
inductive StartResult where
  | panicked (reason : PanicReason)
  | ok (s : ChainedBftSMR) (trace : List BootEvent)
  deriving DecidableEq

/-- The environment of one `start()` call: whether the Tokio runtime build
succeeds, and the data the blocking liveness-storage recovery returns. -/
structure StartEnv where
  runtimeOk : Bool
  liveness_storage_data : LivenessStorageData
  deriving DecidableEq

/-- `ChainedBftSMR::start` (the ConsensusProvider impl): build the runtime,
panicking on failure; take the one-shot input, panicking when it was already
consumed; create the time service and the bounded channels; block on storage
recovery; build the Epoch Manager and the Network Task; resolve the initial
Processor State; publish the block-tree reference when the resolved state is
already steady; spawn the network task and the dispatch loop; retain the
runtime handle and return Ok. -/
def ChainedBftSMR.start (s : ChainedBftSMR) (env : StartEnv) : StartResult :=
  if env.runtimeOk = false then .panicked .runtimeCreationFailed
  else
    match s.input with
    | none => .panicked .inputAlreadyConsumed
    | some _ =>
      .ok { s with input := none, runtime := some (),
                   block_store :=
                     (match ((⟨env.liveness_storage_data.epoch_info, 0⟩ :
                         EpochManager).start env.liveness_storage_data).2 with
                     | .eventProcessor p => some p.blockStore
                     | .startupSyncProcessor _ => s.block_store) }
        bootTrace

/-- `ChainedBftSMR::stop`: take (and thereby drop) the retained runtime
handle; nothing else is touched. -/
def ChainedBftSMR.stop (s : ChainedBftSMR) : ChainedBftSMR :=
  { s with runtime := none }

/-! ## Helper lemmas -/

/-- Characterization of a successful `start()` call: it requires a live
runtime build and an unconsumed input bundle, performs exactly the bootstrap
trace, and returns the handle with the input consumed, the runtime handle
retained, and the block-store reference published exactly in the steady-state
resolution case. -/
theorem start_ok_characterization (s : ChainedBftSMR) (env : StartEnv)
    (s2 : ChainedBftSMR) (tr : List BootEvent)
    (h : s.start env = .ok s2 tr) :
    env.runtimeOk = true ∧ s.input.isSome = true ∧ tr = bootTrace ∧
    s2.author = s.author ∧ s2.runtime = some () ∧ s2.input = none ∧
    s2.storage = s.storage ∧
    s2.block_store =
      (match ((⟨env.liveness_storage_data.epoch_info, 0⟩ :
          EpochManager).start env.liveness_storage_data).2 with
       | .eventProcessor p => some p.blockStore
       | .startupSyncProcessor _ => s.block_store) := by
  unfold ChainedBftSMR.start at h
  split at h
  · exact absurd h (by simp)
  · rename_i henv
    split at h
    · exact absurd h (by simp)
    · rename_i i hi
      injection h with h1 h2
      subst h1
      subst h2
      refine ⟨by simpa using henv, by simp [hi], rfl, rfl, rfl, rfl, rfl, rfl⟩

/-! ## Claim theorems -/

/-- Claim C1: once `start()` has succeeded on a handle (consuming the
construction-input bundle), a second `start()` on the resulting handle always
fails fatally — panicking on the consumed input bundle, or on runtime
creation when that fails first — and never returns Ok. -/
theorem start_twice_panics (s s2 : ChainedBftSMR) (env env2 : StartEnv)
    (tr : List BootEvent) (h : s.start env = .ok s2 tr) :
    s2.start env2 =
      .panicked (if env2.runtimeOk = true then .inputAlreadyConsumed
                 else .runtimeCreationFailed) := by
  have h2 : s2.input = none :=
    (start_ok_characterization s env s2 tr h).2.2.2.2.2.1
  unfold ChainedBftSMR.start
  rw [h2]
  cases henv : env2.runtimeOk <;> simp [henv]

/-- Witness for C1 at a freshly constructed handle started once with a
successful runtime build and full storage recovery. -/
theorem start_twice_panics_witness :
    ChainedBftSMR.start
      { author := 1, runtime := some (), block_store := some 7, storage := 2,
        input := none }
      { runtimeOk := true,
        liveness_storage_data := { epoch_info := 5, recovery := some 7 } } =
      .panicked (if (true : Bool) = true then .inputAlreadyConsumed
                 else .runtimeCreationFailed) :=
  start_twice_panics (ChainedBftSMR.new 1 2 ⟨0, 0, 0, 0, 0, 0⟩)
    { author := 1, runtime := some (), block_store := some 7, storage := 2,
      input := none }
    { runtimeOk := true, liveness_storage_data := ⟨5, some 7⟩ }
    { runtimeOk := true, liveness_storage_data := ⟨5, some 7⟩ }
    bootTrace rfl

/-- Claim C8: on a successful `start()`, the blocking liveness-storage
recovery occurs strictly before the Epoch Manager is built and strictly
before either the network task or the dispatch loop is spawned; dispatch
happens only inside the spawned loop, so no message handler runs before
storage recovery has returned. -/
theorem storage_recovery_precedes_loop (s s2 : ChainedBftSMR)
    (env : StartEnv) (tr : List BootEvent) (h : s.start env = .ok s2 tr) :
    tr.indexOf BootEvent.recoverStorage <
        tr.indexOf BootEvent.buildEpochManager ∧
      tr.indexOf BootEvent.recoverStorage <
        tr.indexOf BootEvent.spawnNetworkTask ∧
      tr.indexOf BootEvent.recoverStorage <
        tr.indexOf BootEvent.spawnEventLoop := by
  obtain ⟨-, -, htr, -, -, -, -, -⟩ := start_ok_characterization s env s2 tr h
  subst htr
  decide

/-- Witness for C8 at a concrete successful start. -/
theorem storage_recovery_precedes_loop_witness :
    bootTrace.indexOf BootEvent.recoverStorage <
        bootTrace.indexOf BootEvent.buildEpochManager ∧
      bootTrace.indexOf BootEvent.recoverStorage <
        bootTrace.indexOf BootEvent.spawnNetworkTask ∧
      bootTrace.indexOf BootEvent.recoverStorage <
        bootTrace.indexOf BootEvent.spawnEventLoop :=
  storage_recovery_precedes_loop (ChainedBftSMR.new 1 2 ⟨0, 0, 0, 0, 0, 0⟩)
    { author := 1, runtime := some (), block_store := some 7, storage := 2,
      input := none }
    { runtimeOk := true, liveness_storage_data := ⟨5, some 7⟩ }
    bootTrace rfl

/-- Claim C9: starting from a handle whose block-tree reference is absent (as
`new` constructs it), a successful `start()` leaves the block-tree reference
populated exactly when the Epoch Manager resolved the initial Processor State
to the steady-state variant; when resolution yields startup-recovery the
reference stays absent. -/
theorem block_store_published_iff_steady (s s2 : ChainedBftSMR)
    (env : StartEnv) (tr : List BootEvent) (h : s.start env = .ok s2 tr)
    (h0 : s.block_store = none) :
    s2.block_store.isSome =
      ((⟨env.liveness_storage_data.epoch_info, 0⟩ : EpochManager).start
          env.liveness_storage_data).2.isEventProcessor := by
  obtain ⟨-, -, -, -, -, -, -, hbs⟩ := start_ok_characterization s env s2 tr h
  rw [h0] at hbs
  rw [hbs]
  cases hp : ((⟨env.liveness_storage_data.epoch_info, 0⟩ : EpochManager).start
      env.liveness_storage_data).2 <;>
    simp [Processor.isEventProcessor]

/-- Witness for C9 at a concrete start whose storage recovery is
insufficient: the resolved state is startup-recovery and the block-store
reference stays absent. -/
theorem block_store_published_iff_steady_witness :
    (Option.none : Option Nat).isSome =
      ((⟨5, 0⟩ : EpochManager).start ⟨5, none⟩).2.isEventProcessor :=
  block_store_published_iff_steady (ChainedBftSMR.new 1 2 ⟨0, 0, 0, 0, 0, 0⟩)
    { author := 1, runtime := some (), block_store := none, storage := 2,
      input := none }
    { runtimeOk := true, liveness_storage_data := ⟨5, none⟩ }
    bootTrace rfl rfl

/-- Claim C2: an epoch-change notification whose notified epoch is strictly
below the current epoch is ignored in both loops: the startup-recovery
sub-loop keeps its state unchanged, makes no collaborator call and continues
waiting, and the steady-state loop keeps its state — the processor reference,
the epoch manager and every buffered message — unchanged with no collaborator
call, no rebuild and no clearing. -/
theorem stale_epoch_change_is_noop (st : SubState) (s : SteadyState)
    (e : Epoch) (h1 : e < st.epoch_manager.epoch)
    (h2 : e < s.epoch_manager.epoch) :
    gen_event_processor_step st (.epoch_change e) = .looped st [] true ∧
    start_event_processing_step s (.epoch_change e) = ⟨s, [], true⟩ := by
  constructor
  · simp [gen_event_processor_step, Nat.not_le.mpr h1]
  · simp [start_event_processing_step, Nat.not_le.mpr h2]

/-- Witness for C2: a notification for epoch 3 while both loops are at epoch
5 changes nothing. -/
theorem stale_epoch_change_is_noop_witness :
    gen_event_processor_step ⟨⟨5, 0⟩, ⟨[], [], [], [], [], [], []⟩⟩
        (.epoch_change 3) =
      .looped ⟨⟨5, 0⟩, ⟨[], [], [], [], [], [], []⟩⟩ [] true ∧
    start_event_processing_step
        ⟨⟨5, 1⟩, ⟨0, 0⟩, ⟨[], [], [], [], [], [], []⟩⟩ (.epoch_change 3) =
      ⟨⟨⟨5, 1⟩, ⟨0, 0⟩, ⟨[], [], [], [], [], [], []⟩⟩, [], true⟩ :=
  stale_epoch_change_is_noop ⟨⟨5, 0⟩, ⟨[], [], [], [], [], [], []⟩⟩
    ⟨⟨5, 1⟩, ⟨0, 0⟩, ⟨[], [], [], [], [], [], []⟩⟩ 3 (by decide) (by decide)

/-- Claim C3: in the steady-state loop, an epoch-change notification at or
above the current epoch rebuilds the processor via `start_new_epoch`, clears
all buffered messages from the receiver channels, and runs the new processor
start hook, in that order within the same loop iteration — hence before any
subsequent message is selected and dispatched — the replacement yields a
processor distinct from the current one, and an epoch-change notification
passing the guard is the only event that ever replaces the current processor
reference. -/
theorem epoch_change_rebuild_sequence (s : SteadyState) (e : Epoch)
    (h : s.epoch_manager.epoch ≤ e)
    (hfresh : s.event_processor.id < s.epoch_manager.nextId) :
    start_event_processing_step s (.epoch_change e) =
      ⟨{ epoch_manager := { epoch := e,
                            nextId := s.epoch_manager.nextId + 1 },
         event_processor := { id := s.epoch_manager.nextId,
                              blockStore := s.epoch_manager.nextId },
         network_receivers := s.network_receivers.clear_prev_epoch_msgs },
       [.start_new_epoch e, .clear_prev_epoch_msgs, .processor_start],
       true⟩ ∧
    (start_event_processing_step s (.epoch_change e)).state.event_processor ≠
      s.event_processor ∧
    ∀ ev : Event,
      (start_event_processing_step s ev).state.event_processor ≠
          s.event_processor →
        ∃ e2, ev = .epoch_change e2 ∧ s.epoch_manager.epoch ≤ e2 := by
  have hstep : start_event_processing_step s (.epoch_change e) =
      ⟨{ epoch_manager := { epoch := e,
                            nextId := s.epoch_manager.nextId + 1 },
         event_processor := { id := s.epoch_manager.nextId,
                              blockStore := s.epoch_manager.nextId },
         network_receivers := s.network_receivers.clear_prev_epoch_msgs },
       [.start_new_epoch e, .clear_prev_epoch_msgs, .processor_start],
       true⟩ := by
    simp [start_event_processing_step, h, EpochManager.start_new_epoch]
  refine ⟨hstep, ?_, ?_⟩
  · rw [hstep]
    intro hc
    have hid := congrArg EventProcessor.id hc
    simp at hid
    omega
  · intro ev hne
    cases ev with
    | proposal_msg m r => exact absurd rfl hne
    | block_retrieval m => exact absurd rfl hne
    | vote_msg m r => exact absurd rfl hne
    | local_timeout r => exact absurd rfl hne
    | sync_info_msg m r => exact absurd rfl hne
    | epoch_change e2 =>
      by_cases hg : s.epoch_manager.epoch ≤ e2
      · exact ⟨e2, rfl, hg⟩
      · refine absurd ?_ hne
        simp [start_event_processing_step, hg]
    | different_epoch peer e2 => exact absurd rfl hne
    | epoch_retrieval peer m => exact absurd rfl hne

/-- Witness for C3: an epoch-6 notification while in steady state for epoch 5
with three stale proposals queued rebuilds, clears the queues and restarts,
and nothing else replaces the processor. -/
theorem epoch_change_rebuild_sequence_witness :
    start_event_processing_step
        ⟨⟨5, 1⟩, ⟨0, 0⟩, ⟨[1, 2, 3], [], [], [], [], [], []⟩⟩
        (.epoch_change 6) =
      ⟨{ epoch_manager := { epoch := 6, nextId := 1 + 1 },
         event_processor := { id := 1, blockStore := 1 },
         network_receivers :=
           NetworkReceivers.clear_prev_epoch_msgs
             ⟨[1, 2, 3], [], [], [], [], [], []⟩ },
       [.start_new_epoch 6, .clear_prev_epoch_msgs, .processor_start],
       true⟩ ∧
    (start_event_processing_step
        ⟨⟨5, 1⟩, ⟨0, 0⟩, ⟨[1, 2, 3], [], [], [], [], [], []⟩⟩
        (.epoch_change 6)).state.event_processor ≠
      (⟨0, 0⟩ : EventProcessor) ∧
    ∀ ev : Event,
      (start_event_processing_step
          ⟨⟨5, 1⟩, ⟨0, 0⟩, ⟨[1, 2, 3], [], [], [], [], [], []⟩⟩
          ev).state.event_processor ≠ (⟨0, 0⟩ : EventProcessor) →
        ∃ e2, ev = .epoch_change e2 ∧ 5 ≤ e2 :=
  epoch_change_rebuild_sequence
    ⟨⟨5, 1⟩, ⟨0, 0⟩, ⟨[1, 2, 3], [], [], [], [], [], []⟩⟩ 6
    (by decide) (by decide)

/-- Claim C4: the epoch-change guard compares with ≤, not strict <: a
notification for exactly the current epoch triggers the full rebuild and
message-clearing in both loops, exactly as a strictly greater epoch would. -/
theorem epoch_change_guard_accepts_equal (st : SubState) (s : SteadyState) :
    gen_event_processor_step st (.epoch_change st.epoch_manager.epoch) =
      .exited { epoch_manager := { epoch := st.epoch_manager.epoch,
                                   nextId := st.epoch_manager.nextId + 1 },
                network_receivers :=
                  st.network_receivers.clear_prev_epoch_msgs }
        { id := st.epoch_manager.nextId,
          blockStore := st.epoch_manager.nextId }
        [.start_new_epoch st.epoch_manager.epoch, .clear_prev_epoch_msgs]
        false ∧
    start_event_processing_step s (.epoch_change s.epoch_manager.epoch) =
      ⟨{ epoch_manager := { epoch := s.epoch_manager.epoch,
                            nextId := s.epoch_manager.nextId + 1 },
         event_processor := { id := s.epoch_manager.nextId,
                              blockStore := s.epoch_manager.nextId },
         network_receivers := s.network_receivers.clear_prev_epoch_msgs },
       [.start_new_epoch s.epoch_manager.epoch, .clear_prev_epoch_msgs,
        .processor_start], true⟩ := by
  constructor <;>
    simp [gen_event_processor_step, start_event_processing_step,
      EpochManager.start_new_epoch]

/-- Claim C6: in the startup-recovery sub-loop, a proposal, vote or sync-info
message whose recovery extraction fails is processed and discarded: the state
— including every receiver buffer — is unchanged, the failure is non-fatal,
the already-dequeued message is not re-queued (so it is never retried), and
the loop continues waiting; a successful extraction builds the steady-state
processor from the recovered data via `start_epoch_with_recovery_data` and
exits the sub-loop. -/
theorem startup_recovery_message_handling (st : SubState) (m d : Nat) :
    (gen_event_processor_step st (.proposal_msg m none) =
        .looped st [.process_proposal_msg m] true ∧
      gen_event_processor_step st (.vote_msg m none) =
        .looped st [.process_vote m] true ∧
      gen_event_processor_step st (.sync_info_msg m none) =
        .looped st [.process_sync_info_msg m] true) ∧
    (gen_event_processor_step st (.proposal_msg m (some d)) =
        .exited { st with epoch_manager :=
                    { st.epoch_manager with
                        nextId := st.epoch_manager.nextId + 1 } }
          { id := st.epoch_manager.nextId, blockStore := d }
          [.process_proposal_msg m, .start_epoch_with_recovery_data d]
          false ∧
      gen_event_processor_step st (.vote_msg m (some d)) =
        .exited { st with epoch_manager :=
                    { st.epoch_manager with
                        nextId := st.epoch_manager.nextId + 1 } }
          { id := st.epoch_manager.nextId, blockStore := d }
          [.process_vote m, .start_epoch_with_recovery_data d] false ∧
      gen_event_processor_step st (.sync_info_msg m (some d)) =
        .exited { st with epoch_manager :=
                    { st.epoch_manager with
                        nextId := st.epoch_manager.nextId + 1 } }
          { id := st.epoch_manager.nextId, blockStore := d }
          [.process_sync_info_msg m, .start_epoch_with_recovery_data d]
          false) := by
  refine ⟨⟨rfl, rfl, rfl⟩, rfl, rfl, rfl⟩

/-- Claim C7 counterexample: the claim states the idle/busy sample is
recorded on every iteration, including the one in which the startup-recovery
sub-loop exits; but on a proposal whose recovery extraction succeeds the
sub-loop breaks out of the select before the two counter observations run, so
the exiting iteration records nothing. -/
theorem startup_exit_skips_timing_counterexample :
    (gen_event_processor_step ⟨⟨5, 0⟩, ⟨[], [], [], [], [], [], []⟩⟩
        (.proposal_msg 0 (some 1))).recorded = false := by decide

/-- Claim C7 amended: every steady-state loop iteration records the idle/busy
sample regardless of which source fired; a startup-recovery iteration records
it exactly when it does not exit the sub-loop (the break on exit skips the
observations); and whenever the sample is recorded, the recorded idle and
busy durations sum to the elapsed wall time of the iteration at the
observation point. -/
theorem timing_sample_recording (s : SteadyState) (st : SubState)
    (ev : Event) (idleElapsed totalElapsed : Nat)
    (ht : idleElapsed ≤ totalElapsed) :
    (start_event_processing_step s ev).recorded = true ∧
    (gen_event_processor_step st ev).recorded =
      !(gen_event_processor_step st ev).exits ∧
    (loopSample idleElapsed totalElapsed).1 +
        (loopSample idleElapsed totalElapsed).2 = totalElapsed := by
  refine ⟨?_, ?_, ?_⟩
  · cases ev with
    | proposal_msg m r => rfl
    | block_retrieval m => rfl
    | vote_msg m r => rfl
    | local_timeout r => rfl
    | sync_info_msg m r => rfl
    | epoch_change e =>
      by_cases hg : s.epoch_manager.epoch ≤ e <;>
        simp [start_event_processing_step, hg]
    | different_epoch peer e => rfl
    | epoch_retrieval peer m => rfl
  · cases ev with
    | proposal_msg m r => cases r <;> rfl
    | block_retrieval m => rfl
    | vote_msg m r => cases r <;> rfl
    | local_timeout r => rfl
    | sync_info_msg m r => cases r <;> rfl
    | epoch_change e =>
      by_cases hg : st.epoch_manager.epoch ≤ e <;>
        simp [gen_event_processor_step, StartupStepResult.recorded,
          StartupStepResult.exits, hg]
    | different_epoch peer e => rfl
    | epoch_retrieval peer m => rfl
  · simp only [loopSample]
    omega

/-- Witness for the amended C7 at a concrete steady state, recovery state,
message and timing pair. -/
theorem timing_sample_recording_witness :
    (start_event_processing_step
        ⟨⟨5, 1⟩, ⟨0, 0⟩, ⟨[], [], [], [], [], [], []⟩⟩
        (.different_epoch 1 2)).recorded = true ∧
    (gen_event_processor_step ⟨⟨5, 0⟩, ⟨[], [], [], [], [], [], []⟩⟩
        (.different_epoch 1 2)).recorded =
      !(gen_event_processor_step ⟨⟨5, 0⟩, ⟨[], [], [], [], [], [], []⟩⟩
        (.different_epoch 1 2)).exits ∧
    (loopSample 3 10).1 + (loopSample 3 10).2 = 10 :=
  timing_sample_recording ⟨⟨5, 1⟩, ⟨0, 0⟩, ⟨[], [], [], [], [], [], []⟩⟩
    ⟨⟨5, 0⟩, ⟨[], [], [], [], [], [], []⟩⟩ (.different_epoch 1 2) 3 10
    (by decide)

/-- One dispatch step keeps a steady driver steady. -/
theorem driverStep_steady (s : SteadyState) (ev : Event) :
    driverStep (.steady s) ev =
      .steady (start_event_processing_step s ev).state := rfl

/-- A driver that reached the steady-state loop stays there over any sequence
of dispatched messages. -/
theorem runDriver_steady_isSteady (s : SteadyState) (evs : List Event) :
    (runDriver (.steady s) evs).isSteady = true := by
  induction evs generalizing s with
  | nil => rfl
  | cons ev evs ih => simpa [runDriver, driverStep] using ih _

/-- A run that begins in the steady-state loop makes no recovery-to-steady
transition. -/
theorem countRecoveryToSteady_steady (s : SteadyState) (evs : List Event) :
    countRecoveryToSteady (.steady s) evs = 0 := by
  induction evs generalizing s with
  | nil => rfl
  | cons ev evs ih =>
    simp [countRecoveryToSteady, driverStep, DriverState.isSteady, ih]

/-- Along any run the driver leaves startup-recovery at most once. -/
theorem countRecoveryToSteady_le_one (d : DriverState) (evs : List Event) :
    countRecoveryToSteady d evs ≤ 1 := by
  induction evs generalizing d with
  | nil => simp [countRecoveryToSteady]
  | cons ev evs ih =>
    cases d with
    | steady s =>
      simp [countRecoveryToSteady, driverStep, DriverState.isSteady,
        countRecoveryToSteady_steady]
    | recovering st =>
      cases hstep : driverStep (.recovering st) ev with
      | recovering st2 =>
        simpa [countRecoveryToSteady, hstep, DriverState.isSteady]
          using ih (.recovering st2)
      | steady s2 =>
        simp [countRecoveryToSteady, hstep, DriverState.isSteady,
          countRecoveryToSteady_steady]

/-- Claim C5: over any sequence of dispatched messages after a single
`start()`, the processor state makes the startup-recovery to steady-state
transition at most once, and a driver in the steady-state loop never reverts:
every later step stays inside the steady-state loop (a new-epoch rebuild
replaces the processor but remains steady). -/
theorem processor_state_transition_discipline (d : DriverState)
    (s : SteadyState) (evs evs2 : List Event) :
    countRecoveryToSteady d evs ≤ 1 ∧
    (runDriver (.steady s) evs2).isSteady = true :=
  ⟨countRecoveryToSteady_le_one d evs, runDriver_steady_isSteady s evs2⟩

/-- Claim C10: `stop()` is a total function (it never panics) and only takes
the retained runtime handle: author, block-store reference, storage handle
and input bundle are untouched and the scheduling-substrate handle is absent
afterwards; on a handle that was never started, or that was already stopped,
it changes nothing at all. -/
theorem stop_is_noop_without_runtime (s : ChainedBftSMR) :
    s.stop = { author := s.author, runtime := none,
               block_store := s.block_store, storage := s.storage,
               input := s.input } := rfl

end ChainedBft
